import Mathlib

/-!
Shallow embedding of the concurrency core of the admin CLI plugin:
the registry `remove` command (`plugins/admin/pkg/command/registry/remove.go`)
and the profiling downloader (whose implementation file is absent from the
sources; only its test `downloader_test.go` is present, so that component is
modelled from the specification).

Conventions of the embedding:
* Go maps keyed by name are lists of key/value pairs with deduplicated keys;
  Go map iteration order is unspecified, and no theorem below depends on the
  order of keys.
* The fan-out of goroutines joined by a `sync.WaitGroup` is modelled as a
  total function producing the complete multiset of per-unit outcomes: the
  Go function returns only after the barrier, so its observable behaviour is
  exactly the full collection of outcomes. The buffered error channel is the
  list of error messages produced (producers never block because the buffer
  equals the handle count; the length bound is proved below).
* External collaborators (secret store, ServiceAccount store, HTTP transport)
  are parameters: a delete-by-name operation classifying not-found distinctly,
  and a transport mapping a request to a response.
* Printed lines carry the exact message text (without trailing newlines);
  concurrent deletions print in a nondeterministic interleaving, and no
  theorem below asserts more than membership facts about those lines.
-/

/-- One entry of the `auths` object of a docker config-json credential:
only the `username` field is consulted by the remove command. -/
structure RegistryAuth where
  username : String
deriving DecidableEq, Repr

/-- The unmarshalled `.dockerconfigjson` payload of a credential secret:
a mapping from server URL to auth entry, modelled as an association list. -/
structure Registry where
  auths : List (String × RegistryAuth)
deriving DecidableEq, Repr

/-- A stored credential secret. The `.dockerconfigjson` data is carried
already unmarshalled (an unmarshal failure makes the command return early
before any state change, outside the properties considered here). -/
structure Secret where
  ns : String
  name : String
  dockerConfigJson : Registry
deriving DecidableEq, Repr

/-- Outcome of one delete-by-name call against the secret store:
success, a classified not-found condition, or any other failure. -/
inductive DeleteResult where
  | ok
  | notFound
  | errMsg (msg : String)
deriving DecidableEq, Repr

/-- Record of one deletion attempt: the namespace and name passed to the
delete-by-name collaborator, and the outcome it reported. -/
structure DeleteCall where
  ns : String
  name : String
  result : DeleteResult
deriving DecidableEq, Repr

/-- `deleteSecrets`: one goroutine per map entry, each calling
`Secrets(secret.Namespace).Delete(secret.Name, ...)` on the value stored in
the entry, joined by a `sync.WaitGroup` before returning. The returned list
records every call made (one per entry). -/
def deleteSecrets (delete : String → String → DeleteResult)
    (secretsMap : List (String × Secret)) : List DeleteCall :=
  secretsMap.map (fun e =>
    { ns := e.2.ns, name := e.2.name, result := delete e.2.ns e.2.name })

/-- Contents of the buffered error channel after the join: each goroutine
whose delete failed with a non-not-found error sent exactly one formatted
message; not-found and success send nothing. -/
def deleteSecretsErrCh (calls : List DeleteCall) : List String :=
  calls.filterMap (fun c =>
    match c.result with
    | DeleteResult.errMsg m =>
        some ("failed to delete secret \x27" ++ c.ns ++ "/" ++ c.name ++ "\x27: " ++ m)
    | _ => none)

/-- The single non-blocking `select` read of the error channel performed by
the caller after `deleteSecrets` returns: the first buffered message if any,
otherwise nothing. -/
def selectDeleteError (errCh : List String) : Option String :=
  errCh.head?

/-- The error the `RunE` body returns from the deletion phase: the one read
message wrapped as `failed to delete secrets: ...`, or nil. -/
def runDeleteError (errCh : List String) : Option String :=
  (selectDeleteError errCh).map (fun e => "failed to delete secrets: " ++ e)

/-- Progress line printed by one deletion goroutine (none on hard failure,
where the error goes to the channel instead). -/
def deleteCallMessage (c : DeleteCall) : Option String :=
  match c.result with
  | DeleteResult.ok =>
      some ("Secret \x27" ++ c.ns ++ "/" ++ c.name ++ "\x27 deleted")
  | DeleteResult.notFound =>
      some ("Secret \x27" ++ c.ns ++ "/" ++ c.name ++ "\x27 not found, skipped")
  | DeleteResult.errMsg _ => none

/-- The inner filter loop of the command: a secret matches when some entry of
its `auths` object has the given server as key and the given username. -/
def secretMatches (server username : String) (s : Secret) : Bool :=
  s.dockerConfigJson.auths.any (fun a => a.1 == server && a.2.username == username)

/-- The listed secrets that match the server and username. -/
def matchedSecrets (server username : String) (items : List Secret) : List Secret :=
  items.filter (secretMatches server username)

/-- Key set of `secretsMap`: the names of the matching secrets (map keys are
unique, so duplicates collapse). -/
def secretsMapKeys (server username : String) (items : List Secret) : List String :=
  ((matchedSecrets server username items).map Secret.name).dedup

/-- The entries of `secretsMap` as they stand when `deleteSecrets` runs.
The Go code executes `secretsMap[secret.Name] = &secret` inside
`for _, secret := range secrets.Items`: under the pre-1.22 loop semantics
this 2020 module uses, `secret` is a single variable reused across
iterations, so every stored pointer is the same address, and by the time the
deletion goroutines dereference it the variable holds the last element of
`secrets.Items` (matching or not). Every entry therefore carries that last
element as its value. -/
def secretsMapEntries (server username : String) (items : List Secret) :
    List (String × Secret) :=
  match items.getLast? with
  | none => []
  | some lastItem =>
      (secretsMapKeys server username items).map (fun k => (k, lastItem))

/-- The cluster state the command consults: the labelled credential secrets
listed in the `default` namespace, and the ImagePullSecrets names of the
`default/default` ServiceAccount. -/
structure Cluster where
  secrets : List Secret
  saImagePullSecrets : List String
deriving DecidableEq, Repr

/-- The loop rebuilding the ImagePullSecrets of the ServiceAccount: starting
from an empty slice, each prior entry is appended unless its name is a key of
`secretsMap`. -/
def buildImagePullSecrets (keys : List String) (prior : List String) : List String :=
  prior.foldl (fun acc ips => if keys.contains ips then acc else acc ++ [ips]) []

/-- Observable effects of one run of the remove command (collaborator calls
assumed to succeed): the lines printed, the ImagePullSecrets written back to
the ServiceAccount if it was updated, the deletion attempts, and the error
returned. -/
structure RmEffects where
  printed : List String
  saUpdated : Option (List String)
  deleteCalls : List DeleteCall
  errOut : Option String
deriving DecidableEq, Repr

/-- The `RunE` body of the remove command (after flag validation), with the
secret store list result and ServiceAccount state supplied by `cluster` and
the delete-by-name collaborator supplied by `delete`: filter the secrets,
return early with a message when none match, otherwise update the
ServiceAccount, fan out the deletions, and surface at most one failure. -/
def registryRmRun (server username : String) (cluster : Cluster)
    (delete : String → String → DeleteResult) : RmEffects :=
  let keys := secretsMapKeys server username cluster.secrets
  if keys.isEmpty then
    { printed := ["No registry found for server: \x27" ++ server ++
        "\x27 and username: \x27" ++ username ++ "\x27"],
      saUpdated := none, deleteCalls := [], errOut := none }
  else
    let newIps := buildImagePullSecrets keys cluster.saImagePullSecrets
    let entries := secretsMapEntries server username cluster.secrets
    let calls := deleteSecrets delete entries
    { printed := ("ImagePullSecrets of ServiceAccount \x27default/default\x27 updated")
        :: calls.filterMap deleteCallMessage,
      saUpdated := some newIps,
      deleteCalls := calls,
      errOut := runDeleteError (deleteSecretsErrCh calls) }

/-- Boolean test that the pattern list occurs at the front of the target. -/
def startsWithSeq : List Char → List Char → Bool
  | [], _ => true
  | _ :: _, [] => false
  | a :: as, b :: bs => a == b && startsWithSeq as bs

/-- Boolean test that the pattern list occurs contiguously somewhere inside
the target. -/
def containsSeq (pat : List Char) : List Char → Bool
  | [] => startsWithSeq pat []
  | c :: rest =>
      startsWithSeq pat (c :: rest) || containsSeq pat rest

/-- Substring test over strings, used to state that an error message
contains a given fragment. -/
def containsSubstring (s pat : String) : Bool :=
  containsSeq pat.toList s.toList

/-- Modelled from the spec: the profiling downloader implementation file is
absent from the sources (only its test is present). ProfileKind is a closed
enumerated set carried as a small integer: an unknown sentinel at zero and,
for every valid kind, an entry of the fixed endpoint table; any value at or
past the table size is outside the set. -/
abbrev ProfileType := Nat

/-- Modelled from the spec: the sentinel for an unrecognized profile kind. -/
def ProfileTypeUnknown : ProfileType := 0

/-- Modelled from the spec: the heap profile kind, mapped by the endpoint
table to the path `/debug/pprof/heap`. -/
def ProfileTypeHeap : ProfileType := 1

/-- Modelled from the spec: the fixed endpoint table indexed by kind. The
unknown sentinel owns no endpoint; the table schema maps each valid kind to
a fixed `/debug/pprof/...` path, of which the heap entry is the one the
stated properties exercise. -/
def ProfileEndpoints : List (Option String) :=
  [none, some "/debug/pprof/heap"]

/-- Modelled from the spec: table lookup for a kind, none outside the closed
set (the sentinel and every index at or past the table size). -/
def endpointFor (kind : ProfileType) : Option String :=
  ProfileEndpoints.getD kind none

/-- An HTTP GET issued by the downloader: target port on localhost and
request path. -/
structure Request where
  port : Nat
  path : String
deriving DecidableEq, Repr

/-- The response the transport returns for a request. -/
structure HttpResponse where
  status : Nat
  body : String
deriving DecidableEq, Repr

/-- Resolution of the race between the ready gate and the stop gate: exactly
one of the two signals is observed first (both gates firing does not
double-execute the fetch). -/
inductive GateRace where
  | readyFirst
  | stopFirst
deriving DecidableEq, Repr

/-- Observable behaviour of one `Download` call: the returned error if any,
the bytes written to the destination sink, the requests issued through the
transport, and whether the gate race was consulted at all. -/
structure DownloadTrace where
  error : Option String
  sink : String
  requests : List Request
  gateWaited : Bool
deriving DecidableEq, Repr

/-- Modelled from the spec: `Download(kind, destination)` of the gated
downloader, whose implementation file is absent from the sources. The kind
is validated against the endpoint table before any gate is consulted
(invalid: fails with the unsupported-type error, no waiting, no request);
for a valid kind the call blocks on the gate race: stop first aborts with
`download failed` before any request is issued; ready first issues a single
GET composed from the configured local port and the path of the kind, then
classifies the response: a non-success status fails with
`download error: <body>, code <status>`, and a success copies the whole body
to the sink and returns no error only once the stream is fully drained
(here: the sink carries the complete body). -/
def profileDownload (localPort : Nat) (kind : ProfileType) (race : GateRace)
    (transport : Request → HttpResponse) : DownloadTrace :=
  match endpointFor kind with
  | none =>
      { error := some "unsupported profiling type", sink := "", requests := [],
        gateWaited := false }
  | some path =>
      match race with
      | GateRace.stopFirst =>
          { error := some "download failed", sink := "", requests := [],
            gateWaited := true }
      | GateRace.readyFirst =>
          let req : Request := { port := localPort, path := path }
          let resp := transport req
          if resp.status == 200 then
            { error := none, sink := resp.body, requests := [req],
              gateWaited := true }
          else
            { error := some ("download error: " ++ resp.body ++ ", code " ++
                toString resp.status),
              sink := "", requests := [req], gateWaited := true }

/-- Concrete credential secret used as witness input. -/
def wSecretA : Secret :=
  { ns := "default", name := "reg-a",
    dockerConfigJson := { auths := [("reg.io", { username := "bob" })] } }

/-- Second concrete credential secret used as witness input. -/
def wSecretB : Secret :=
  { ns := "default", name := "reg-b",
    dockerConfigJson := { auths := [("reg.io", { username := "bob" })] } }

/-- Concrete name-keyed handle mapping used as witness input. -/
def wMap : List (String × Secret) :=
  [("reg-a", wSecretA), ("reg-b", wSecretB)]

/-- Concrete delete collaborator failing hard on one handle. -/
def wDeleteFail : String → String → DeleteResult :=
  fun _ name => if name == "reg-a" then DeleteResult.errMsg "boom" else DeleteResult.ok

/-- Concrete cluster with two matching secrets and one unrelated
ImagePullSecrets entry, used as witness and failing input. -/
def wCluster : Cluster :=
  { secrets := [wSecretA, wSecretB], saImagePullSecrets := ["reg-a", "other"] }

/-- Concrete transport used as witness input: answers the heap endpoint with
status 200 and the expected body. -/
def wTransportOk : Request → HttpResponse :=
  fun _ => { status := 200, body := "some-binary-data" }

/-- Concrete transport used as witness input: answers with status 404 and
body `not found`. -/
def wTransport404 : Request → HttpResponse :=
  fun _ => { status := 404, body := "not found" }

/-- Helper: the append-unless-key fold over the prior ImagePullSecrets
equals a filter keeping the entries whose names are not keys. -/
theorem foldl_keepNonKeys_eq_filter (keys : List String) (prior : List String) :
    ∀ acc : List String,
      prior.foldl (fun acc ips => if keys.contains ips then acc else acc ++ [ips]) acc
        = acc ++ prior.filter (fun n => !(keys.contains n)) := by
  induction prior with
  | nil => intro acc; simp
  | cons x xs ih =>
      intro acc
      rw [List.foldl_cons, List.filter_cons]
      cases hx : keys.contains x with
      | true =>
          rw [if_pos rfl, if_neg (by simp), ih acc]
      | false =>
          rw [if_neg (by simp), if_pos (show (!false) = true from rfl),
            ih (acc ++ [x]), List.append_assoc]
          rfl

/-- C1 (code bug): on a listing with two matching secrets, reg-a and reg-b,
the command issues two deletion calls, both against default/reg-b (the last
listed secret), and none against reg-a: the map values all alias the range
loop variable, so no handle is deleted exactly once under its own name. -/
theorem registryRm_loopVarAliasing_failing_input :
    (registryRmRun "reg.io" "bob" wCluster (fun _ _ => DeleteResult.ok)).deleteCalls
        = [{ ns := "default", name := "reg-b", result := DeleteResult.ok },
           { ns := "default", name := "reg-b", result := DeleteResult.ok }] ∧
      ∀ c ∈ (registryRmRun "reg.io" "bob" wCluster
          (fun _ _ => DeleteResult.ok)).deleteCalls, c.name ≠ "reg-a" := by
  decide

/-- C2: when every deletion call performed by the fan-out reports not-found,
nothing is written to the error channel and the deletion phase returns no
error: not-found is recovered locally and never surfaced. -/
theorem deleteSecrets_allNotFound_noError
    (delete : String → String → DeleteResult) (m : List (String × Secret))
    (h : ∀ e ∈ m, delete e.2.ns e.2.name = DeleteResult.notFound) :
    deleteSecretsErrCh (deleteSecrets delete m) = [] ∧
      runDeleteError (deleteSecretsErrCh (deleteSecrets delete m)) = none := by
  have hch : deleteSecretsErrCh (deleteSecrets delete m) = [] := by
    unfold deleteSecretsErrCh deleteSecrets
    rw [List.filterMap_map, List.filterMap_eq_nil_iff]
    intro e he
    simp [h e he]
  exact ⟨hch, by rw [hch]; rfl⟩

/-- C2 witness: a concrete two-entry mapping with an all-not-found delete
collaborator yields an empty error channel and no returned error. -/
theorem deleteSecrets_allNotFound_noError_witness :
    deleteSecretsErrCh (deleteSecrets (fun _ _ => DeleteResult.notFound) wMap) = [] ∧
      runDeleteError
        (deleteSecretsErrCh (deleteSecrets (fun _ _ => DeleteResult.notFound) wMap)) = none :=
  deleteSecrets_allNotFound_noError (fun _ _ => DeleteResult.notFound) wMap
    (fun _ _ => rfl)

/-- C3: when some entry of the mapping fails with a non-not-found error, the
deletion phase returns a non-nil error that wraps one of the buffered
failure messages (the single non-blocking read), and the channel never holds
more messages than the handle count, so producers never block. -/
theorem deleteSecrets_hardFailure_surfaced
    (delete : String → String → DeleteResult) (m : List (String × Secret))
    (e : String × Secret) (he : e ∈ m) (msg : String)
    (hf : delete e.2.ns e.2.name = DeleteResult.errMsg msg) :
    (∃ f, f ∈ deleteSecretsErrCh (deleteSecrets delete m) ∧
        runDeleteError (deleteSecretsErrCh (deleteSecrets delete m))
          = some ("failed to delete secrets: " ++ f)) ∧
      (deleteSecretsErrCh (deleteSecrets delete m)).length ≤ m.length := by
  constructor
  · have hmem : ("failed to delete secret \x27" ++ e.2.ns ++ "/" ++ e.2.name ++
        "\x27: " ++ msg) ∈ deleteSecretsErrCh (deleteSecrets delete m) := by
      unfold deleteSecretsErrCh deleteSecrets
      rw [List.filterMap_map]
      refine List.mem_filterMap.mpr ⟨e, he, ?_⟩
      simp [hf]
    cases hch : deleteSecretsErrCh (deleteSecrets delete m) with
    | nil => rw [hch] at hmem; cases hmem
    | cons f fs =>
        exact ⟨f, List.mem_cons_self f fs, rfl⟩
  · calc (deleteSecretsErrCh (deleteSecrets delete m)).length
        ≤ (deleteSecrets delete m).length := List.length_filterMap_le _ _
      _ = m.length := by unfold deleteSecrets; rw [List.length_map]

/-- C3 witness: a concrete mapping whose reg-a entry fails hard yields a
returned error wrapping one buffered failure, within the channel bound. -/
theorem deleteSecrets_hardFailure_surfaced_witness :
    (∃ f, f ∈ deleteSecretsErrCh (deleteSecrets wDeleteFail wMap) ∧
        runDeleteError (deleteSecretsErrCh (deleteSecrets wDeleteFail wMap))
          = some ("failed to delete secrets: " ++ f)) ∧
      (deleteSecretsErrCh (deleteSecrets wDeleteFail wMap)).length ≤ wMap.length :=
  deleteSecrets_hardFailure_surfaced wDeleteFail wMap ("reg-a", wSecretA)
    (by decide) "boom" (by decide)

/-- C9: when some secret matches, the ServiceAccount is updated with exactly
the prior ImagePullSecrets entries whose names are not keys of the matched
mapping, in their original relative order (the filter characterization of
the append loop). -/
theorem registryRm_imagePullSecrets_filtered
    (server username : String) (cluster : Cluster)
    (delete : String → String → DeleteResult)
    (h : (secretsMapKeys server username cluster.secrets).isEmpty = false) :
    (registryRmRun server username cluster delete).saUpdated
      = some (cluster.saImagePullSecrets.filter
          (fun n => !((secretsMapKeys server username cluster.secrets).contains n))) := by
  unfold registryRmRun
  simp only [h, Bool.false_eq_true, if_false]
  rw [buildImagePullSecrets, foldl_keepNonKeys_eq_filter]
  simp

/-- C9 witness: on the concrete cluster, the updated ImagePullSecrets are
the filter of the prior entries by the matched key set. -/
theorem registryRm_imagePullSecrets_filtered_witness :
    (registryRmRun "reg.io" "bob" wCluster (fun _ _ => DeleteResult.ok)).saUpdated
      = some (wCluster.saImagePullSecrets.filter
          (fun n => !((secretsMapKeys "reg.io" "bob" wCluster.secrets).contains n))) :=
  registryRm_imagePullSecrets_filtered "reg.io" "bob" wCluster
    (fun _ _ => DeleteResult.ok) (by decide)

/-- C10: when no listed secret matches the server and username, the command
prints the no-registry-found message and returns nil, with no ServiceAccount
update and no deletion attempt. -/
theorem registryRm_noMatch_noop
    (server username : String) (cluster : Cluster)
    (delete : String → String → DeleteResult)
    (h : ∀ s ∈ cluster.secrets, secretMatches server username s = false) :
    registryRmRun server username cluster delete =
      { printed := ["No registry found for server: \x27" ++ server ++
            "\x27 and username: \x27" ++ username ++ "\x27"],
        saUpdated := none, deleteCalls := [], errOut := none } := by
  have hm : matchedSecrets server username cluster.secrets = [] := by
    unfold matchedSecrets
    rw [List.filter_eq_nil_iff]
    intro a ha
    simp [h a ha]
  unfold registryRmRun
  simp [secretsMapKeys, hm]

/-- C10 witness: with no stored secrets at all, the command prints the
no-registry-found message and mutates nothing. -/
theorem registryRm_noMatch_noop_witness :
    registryRmRun "reg.io" "bob"
        { secrets := [], saImagePullSecrets := ["reg-a"] }
        (fun _ _ => DeleteResult.ok) =
      { printed := ["No registry found for server: \x27" ++ "reg.io" ++
            "\x27 and username: \x27" ++ "bob" ++ "\x27"],
        saUpdated := none, deleteCalls := [], errOut := none } :=
  registryRm_noMatch_noop "reg.io" "bob"
    { secrets := [], saImagePullSecrets := ["reg-a"] }
    (fun _ _ => DeleteResult.ok) (by intro s hs; cases hs)

/-- C4: with the stop signal observed before the ready signal, Download for
a valid kind returns the aborted error, whose message contains
`download failed`, issues no request and writes nothing to the sink. -/
theorem download_stopBeforeReady_aborted
    (port : Nat) (kind : ProfileType) (path : String)
    (transport : Request → HttpResponse)
    (h : endpointFor kind = some path) :
    (∃ msg, (profileDownload port kind GateRace.stopFirst transport).error = some msg ∧
        containsSubstring msg "download failed" = true) ∧
      (profileDownload port kind GateRace.stopFirst transport).requests = [] ∧
      (profileDownload port kind GateRace.stopFirst transport).sink = "" := by
  unfold profileDownload
  rw [h]
  exact ⟨⟨"download failed", rfl, by decide⟩, rfl, rfl⟩

/-- C4 witness: stop fired first on the heap kind aborts with the
download-failed message and no request. -/
theorem download_stopBeforeReady_aborted_witness :
    (∃ msg, (profileDownload 8080 ProfileTypeHeap GateRace.stopFirst wTransportOk).error
          = some msg ∧ containsSubstring msg "download failed" = true) ∧
      (profileDownload 8080 ProfileTypeHeap GateRace.stopFirst wTransportOk).requests = [] ∧
      (profileDownload 8080 ProfileTypeHeap GateRace.stopFirst wTransportOk).sink = "" :=
  download_stopBeforeReady_aborted 8080 ProfileTypeHeap "/debug/pprof/heap"
    wTransportOk rfl

/-- C5: for every kind outside the closed set (the unknown sentinel or any
value at or past the endpoint-table size), Download fails with a message
containing `unsupported profiling type`, consults no gate and issues no
request, whatever the gate race would have resolved to. -/
theorem download_unsupportedKind
    (port : Nat) (kind : ProfileType) (race : GateRace)
    (transport : Request → HttpResponse)
    (h : kind = ProfileTypeUnknown ∨ ProfileEndpoints.length ≤ kind) :
    (∃ msg, (profileDownload port kind race transport).error = some msg ∧
        containsSubstring msg "unsupported profiling type" = true) ∧
      (profileDownload port kind race transport).requests = [] ∧
      (profileDownload port kind race transport).gateWaited = false := by
  have hnone : endpointFor kind = none := by
    cases h with
    | inl h0 => rw [h0]; rfl
    | inr hge => exact List.getD_eq_default ProfileEndpoints none hge
  unfold profileDownload
  rw [hnone]
  exact ⟨⟨"unsupported profiling type", rfl, by decide⟩, rfl, rfl⟩

/-- C5 witness: the kind equal to the endpoint-table size is rejected with
the unsupported-type message, without gate wait or request. -/
theorem download_unsupportedKind_witness :
    (∃ msg, (profileDownload 8080 ProfileEndpoints.length GateRace.readyFirst
          wTransportOk).error = some msg ∧
        containsSubstring msg "unsupported profiling type" = true) ∧
      (profileDownload 8080 ProfileEndpoints.length GateRace.readyFirst
        wTransportOk).requests = [] ∧
      (profileDownload 8080 ProfileEndpoints.length GateRace.readyFirst
        wTransportOk).gateWaited = false :=
  download_unsupportedKind 8080 ProfileEndpoints.length GateRace.readyFirst
    wTransportOk (Or.inr (Nat.le_refl _))

/-- C6: with the ready gate first and a transport answering the heap
endpoint on the configured port with status 200 and body
`some-binary-data`, Download issues exactly that one GET, copies exactly
that byte sequence to the sink and returns no error. -/
theorem download_success_copiesBody
    (port : Nat) (transport : Request → HttpResponse)
    (h : transport { port := port, path := "/debug/pprof/heap" }
        = { status := 200, body := "some-binary-data" }) :
    profileDownload port ProfileTypeHeap GateRace.readyFirst transport
      = { error := none, sink := "some-binary-data",
          requests := [{ port := port, path := "/debug/pprof/heap" }],
          gateWaited := true } := by
  unfold profileDownload
  rw [show endpointFor ProfileTypeHeap = some "/debug/pprof/heap" from rfl]
  simp [h]

/-- C6 witness: on a concrete port and the 200-transport, the trace is the
single heap GET with the full body copied and no error. -/
theorem download_success_copiesBody_witness :
    profileDownload 8080 ProfileTypeHeap GateRace.readyFirst wTransportOk
      = { error := none, sink := "some-binary-data",
          requests := [{ port := 8080, path := "/debug/pprof/heap" }],
          gateWaited := true } :=
  download_success_copiesBody 8080 wTransportOk rfl

/-- C7: with the ready gate first and a transport answering with any
non-success status, Download fails with the error message
`download error: <body>, code <status>`. -/
theorem download_remoteError_message
    (port status : Nat) (body : String)
    (transport : Request → HttpResponse)
    (hs : status ≠ 200)
    (h : transport { port := port, path := "/debug/pprof/heap" }
        = { status := status, body := body }) :
    (profileDownload port ProfileTypeHeap GateRace.readyFirst transport).error
      = some ("download error: " ++ body ++ ", code " ++ toString status) := by
  unfold profileDownload
  rw [show endpointFor ProfileTypeHeap = some "/debug/pprof/heap" from rfl]
  simp [h, hs]

/-- C7 witness: status 404 with body `not found` yields an error equal to,
hence containing, `download error: not found, code 404`. -/
theorem download_remoteError_message_witness :
    (profileDownload 8080 ProfileTypeHeap GateRace.readyFirst wTransport404).error
        = some ("download error: " ++ "not found" ++ ", code " ++ toString 404) ∧
      containsSubstring ("download error: " ++ "not found" ++ ", code " ++ toString 404)
        "download error: not found, code 404" = true :=
  ⟨download_remoteError_message 8080 404 "not found" wTransport404 (by decide) rfl,
    by decide⟩
